import Mathlib

/-!
Shallow embedding of the `oc` customization layer:

* `src/pkg/cli/create/routepassthrough.go` — the `create route passthrough`
  subcommand: flag registration (`NewCmdCreatePassthroughRoute`) and the
  handler (`Run`).
* `src/pkg/cli/shim_kubectl.go` — `shimKubectlForOc`, which overwrites a
  fixed set of process-global extension points of the kubectl toolkit.

External library calls made by `Run` (service-name resolution, the
`route.UnsecuredRoute` constructor, `util.CreateOrUpdateAnnotation`, the
remote `Create` call and the printer) are passed in as oracle functions in a
`RunEnv`, so the theorems quantify over every possible behaviour of those
externals.  Machine effects are made explicit: `Run` returns a trace that
records, besides the returned Go `error`, the argument passed to each
external side-effecting call (or `none` when that call was never issued).
-/

namespace OC

/-- Go `error` results are embedded as `Except ε`: `.ok` is a `nil` error,
`.error e` a non-nil one.  The error type `ε` stays abstract so a theorem
that `Run` hands an error back untouched really shows it cannot be
rewrapped: `Run` has no way to make an `ε` of its own. -/
abbrev GoResult (ε α : Type) := Except ε α

/-- Subset of `metav1.ObjectMeta` relevant here: the name/namespace the
route is created with and the string-map of annotations (the only part
`util.CreateOrUpdateAnnotation` writes). -/
structure ObjectMeta where
  Name : String
  Namespace : String
  Annotations : List (String × String)
  deriving DecidableEq, Repr

/-- `routev1.RouteTargetReference` (Kind/Name/Weight; the Go `Weight` is a
`*int32`, modelled as `Option Int`). -/
structure RouteTargetReference where
  Kind : String
  Name : String
  Weight : Option Int
  deriving DecidableEq, Repr

/-- `routev1.RoutePort`: the target port as a string (Go uses an
IntOrString). -/
structure RoutePort where
  TargetPort : String
  deriving DecidableEq, Repr

/-- `routev1.TLSConfig`.  All six fields are Go strings (the typed constants
`TLSTerminationType`, `InsecureEdgeTerminationPolicyType` are string kinds,
and the conversions in `Run` lines 91 and 99 are verbatim string casts), so
each is modelled as `String`.  The Go zero value of the struct has every
field `""`. -/
structure TLSConfig where
  Termination : String
  Certificate : String
  Key : String
  CACertificate : String
  DestinationCACertificate : String
  InsecureEdgeTerminationPolicy : String
  deriving DecidableEq, Repr

/-- The zero value `new(routev1.TLSConfig)` allocates (line 95). -/
def TLSConfig.zero : TLSConfig :=
  ⟨"", "", "", "", "", ""⟩

/-- `routev1.TLSTerminationPassthrough = "passthrough"`. -/
def TLSTerminationPassthrough : String := "passthrough"

/-- `routev1.RouteSpec`: the fields of the route object.  `TLS` is a
pointer in Go (`*TLSConfig`), hence `Option`; its zero value is `nil` =
`none`.  `WildcardPolicy` is a string-typed constant kind with zero value
`""`. -/
structure RouteSpec where
  Host : String
  Subdomain : String
  Path : String
  To : RouteTargetReference
  AlternateBackends : List RouteTargetReference
  Port : Option RoutePort
  TLS : Option TLSConfig
  WildcardPolicy : String
  deriving DecidableEq, Repr

/-- `routev1.Route`: metadata plus spec (Status is never touched by the
visible code and is omitted). -/
structure Route where
  ObjectMeta : ObjectMeta
  Spec : RouteSpec
  deriving DecidableEq, Repr

/-- `kcmdutil.DryRunStrategy`. -/
inductive DryRunStrategy where
  | DryRunNone
  | DryRunClient
  | DryRunServer
  deriving DecidableEq, Repr

/-- The flag fields of `CreatePassthroughRouteOptions`
(routepassthrough.go lines 37–45), plus the dry-run strategy taken from the
embedded `CreateRouteSubcommandOptions` (the only field of that struct whose
value, rather than behaviour, `Run` branches on). -/
structure CreatePassthroughRouteOptions where
  Hostname : String
  Port : String
  InsecurePolicy : String
  Service : String
  WildcardPolicy : String
  DryRunStrategy : DryRunStrategy
  deriving DecidableEq, Repr

/-- Oracles for the five external calls `Run` issues, in source order.
Arguments that come from `CreateRouteSubcommandOptions` and never change
during one invocation (mapper, core client, namespace, name,
enforce-namespace, the create-annotation flag, the JSON encoder, the output
stream) are folded into the closures, exactly as the Go call sites close
over `o.CreateRouteSubcommandOptions`. -/
structure RunEnv (ε : Type) where
  /-- `resolveServiceName(o.CreateRouteSubcommandOptions.Mapper, o.Service)`
  (line 81). -/
  resolveServiceName : String → GoResult ε String
  /-- `route.UnsecuredRoute(coreClient, namespace, name, serviceName,
  o.Port, false, enforceNamespace)` (line 85); the two varying arguments are
  the resolved service name and the port string. -/
  UnsecuredRoute : String → String → GoResult ε Route
  /-- `util.CreateOrUpdateAnnotation(createAnnotationFlag, route,
  scheme.DefaultJSONEncoder())` (line 102): in Go it mutates the route in
  place and returns an error, so it is modelled as returning the updated
  route. -/
  createOrUpdateAnnotationFn : Route → GoResult ε Route
  /-- `o.CreateRouteSubcommandOptions.Client.Routes(namespace).Create(ctx,
  route, metav1.CreateOptions)` (line 107). -/
  ClientCreate : Route → GoResult ε Route
  /-- `o.CreateRouteSubcommandOptions.Printer.PrintObj(route, out)`
  (line 113). -/
  PrintObj : Route → GoResult ε Unit

/-- Trace of one `Run` invocation: the returned error plus the argument
passed to each effectful external call, `none` when the call was never
issued. -/
structure RunTrace (ε : Type) where
  /-- The `error` value `Run` returns. -/
  result : GoResult ε Unit
  /-- The locally built route handed to `util.CreateOrUpdateAnnotation`
  (i.e. the object after lines 90–100), if execution got that far. -/
  builtRoute : Option Route
  /-- The route submitted to the remote `Create` call, if it was issued. -/
  createdArg : Option Route
  /-- The route handed to `Printer.PrintObj`, if the printer was called. -/
  printedArg : Option Route

/-- Lines 90–100 of `Run`: the in-place field assignments on the route
returned by `route.UnsecuredRoute`, in source order:

    if len(o.WildcardPolicy) > 0 {
        route.Spec.WildcardPolicy = routev1.WildcardPolicyType(o.WildcardPolicy)
    }
    route.Spec.Host = o.Hostname
    route.Spec.TLS = new(routev1.TLSConfig)
    route.Spec.TLS.Termination = routev1.TLSTerminationPassthrough
    if len(o.InsecurePolicy) > 0 {
        route.Spec.TLS.InsecureEdgeTerminationPolicy =
            routev1.InsecureEdgeTerminationPolicyType(o.InsecurePolicy)
    }
-/
def applyPassthroughFields (o : CreatePassthroughRouteOptions) (route : Route) :
    Route :=
  let route :=
    if 0 < o.WildcardPolicy.length then
      { route with Spec := { route.Spec with WildcardPolicy := o.WildcardPolicy } }
    else route
  let route := { route with Spec := { route.Spec with Host := o.Hostname } }
  let tls := { TLSConfig.zero with Termination := TLSTerminationPassthrough }
  let tls :=
    if 0 < o.InsecurePolicy.length then
      { tls with InsecureEdgeTerminationPolicy := o.InsecurePolicy }
    else tls
  { route with Spec := { route.Spec with TLS := some tls } }

/-- `(*CreatePassthroughRouteOptions).Run` (routepassthrough.go lines
80–114), with the five external calls drawn from `env` and every effect
recorded in the trace.  Each `return err` in the source becomes a trace
whose later call slots are `none`. -/
def Run (ε : Type) (env : RunEnv ε) (o : CreatePassthroughRouteOptions) :
    RunTrace ε :=
  match env.resolveServiceName o.Service with
  | .error err => ⟨.error err, none, none, none⟩
  | .ok serviceName =>
    match env.UnsecuredRoute serviceName o.Port with
    | .error err => ⟨.error err, none, none, none⟩
    | .ok route0 =>
      let route1 := applyPassthroughFields o route0
      match env.createOrUpdateAnnotationFn route1 with
      | .error err => ⟨.error err, some route1, none, none⟩
      | .ok route2 =>
        if o.DryRunStrategy ≠ DryRunStrategy.DryRunClient then
          match env.ClientCreate route2 with
          | .error err => ⟨.error err, some route1, some route2, none⟩
          | .ok route3 =>
            ⟨env.PrintObj route3, some route1, some route2, some route3⟩
        else
          ⟨env.PrintObj route2, some route1, none, some route2⟩

/-! ## Command construction (`NewCmdCreatePassthroughRoute`) -/

/-- The flag-registration state of a `cobra.Command`: the names of the
string flags registered on it, in registration order, and the set of flags
marked required via `MarkFlagRequired`. -/
structure CobraCommand where
  Use : String
  flags : List String
  requiredFlags : List String
  deriving DecidableEq, Repr

/-- `NewCmdCreatePassthroughRoute` (routepassthrough.go lines 48–74), as
its observable flag registrations: the five `StringVar` flags registered in
source order (lines 62–67) and the `MarkFlagRequired("service")` call
(line 66).  The flags contributed by `kcmdutil.AddValidateFlags`,
`CreateRouteSubcommandOptions.AddFlags` and `kcmdutil.AddDryRunFlag`
(lines 69–71) live in external code and add no required flags. -/
def NewCmdCreatePassthroughRoute : CobraCommand :=
  { Use := "passthrough [NAME] --service=SERVICE"
    flags := ["hostname", "port", "insecure-policy", "service", "wildcard-policy"]
    requiredFlags := ["service"] }

/-- Outcome of asking cobra to execute a command: whether the command's
`Run` closure (which calls `Complete` then `Run` of the options,
lines 57–60) was invoked, and which required flags were found missing. -/
structure CmdExecResult where
  ranHandler : Bool
  missingFlags : List String
  deriving DecidableEq, Repr

/-- Modelled from the spec: cobra's required-flag validation (the upstream
CLI toolkit, outside this repository).  Before a command's `Run` closure is
invoked, every flag marked required must have been supplied on the command
line; if any is missing, execution fails with a flag-validation error and
the `Run` closure is never called.  `provided` is the set of flag names the
user supplied. -/
def executeCmd (cmd : CobraCommand) (provided : List String) : CmdExecResult :=
  let missing := cmd.requiredFlags.filter (fun f => ! provided.contains f)
  if missing.isEmpty then ⟨true, []⟩ else ⟨false, missing⟩

/-! ## Startup shim (`shimKubectlForOc`) -/

/-- A value held in one of the kubectl toolkit's overridable function
variables: either the upstream default (named) or the oc-specific wrapper
that `shimKubectlForOc` installs around the previous value
(`X = originpolymorphichelpers.NewXFn(X)`). -/
inductive FnVal where
  | upstream (name : String)
  | ocShim (prev : FnVal)
  deriving DecidableEq, Repr

/-- `kclientcmdapi.Cluster`: only the `Server` field is written by the
visible code; the remaining fields of the composite literal
`kclientcmdapi.Cluster\x7bServer: ...\x7d` stay at their zero values and are
omitted. -/
structure Cluster where
  Server : String
  deriving DecidableEq, Repr

/-- The process-global variables of the kubectl toolkit that
`shimKubectlForOc` writes (shim_kubectl.go lines 23–48). -/
structure KubectlGlobals where
  /-- `kclientcmd.ErrEmptyConfig`, modelled as a token naming the error
  value installed. -/
  ErrEmptyConfig : String
  /-- `kclientcmd.ClusterDefaults`. -/
  ClusterDefaults : Cluster
  /-- `kclientcmd.UseModifyConfigLock`. -/
  UseModifyConfigLock : Bool
  /-- The (verb, group, resource) triples registered through
  `kcmdcreate.AddSpecialVerb`. -/
  specialVerbs : List (String × String × String)
  /-- `kcmdset.ParseDockerImageReferenceToStringFunc`. -/
  ParseDockerImageReferenceToStringFunc : FnVal
  AttachablePodForObjectFn : FnVal
  CanBeExposedFn : FnVal
  HistoryViewerFn : FnVal
  LogsForObjectFn : FnVal
  MapBasedSelectorForObjectFn : FnVal
  ObjectPauserFn : FnVal
  ObjectResumerFn : FnVal
  PortsForObjectFn : FnVal
  ProtocolsForObjectFn : FnVal
  RollbackerFn : FnVal
  StatusViewerFn : FnVal
  UpdatePodSpecForObjectFn : FnVal
  GeneratorFn : FnVal
  DescriberFn : FnVal
  deriving DecidableEq, Repr

/-- `shimKubectlForOc` (shim_kubectl.go lines 20–49) as a pure state
transformer on the toolkit's globals.  The ambient process environment is
passed in as `getenv`; the source's single environment access is
`os.Getenv("KUBERNETES_MASTER")` on line 24. -/
def shimKubectlForOc (getenv : String → String) (g : KubectlGlobals) :
    KubectlGlobals :=
  { g with
    ErrEmptyConfig := "genericclioptions.ErrEmptyConfig"
    ClusterDefaults := { Server := getenv "KUBERNETES_MASTER" }
    ParseDockerImageReferenceToStringFunc :=
      .upstream "clientcmd.ParseDockerImageReferenceToStringFunc"
    specialVerbs :=
      g.specialVerbs ++ [("use", "security.openshift.io", "securitycontextconstraints")]
    UseModifyConfigLock := false
    AttachablePodForObjectFn := .ocShim g.AttachablePodForObjectFn
    CanBeExposedFn := .ocShim g.CanBeExposedFn
    HistoryViewerFn := .ocShim g.HistoryViewerFn
    LogsForObjectFn := .ocShim g.LogsForObjectFn
    MapBasedSelectorForObjectFn := .ocShim g.MapBasedSelectorForObjectFn
    ObjectPauserFn := .ocShim g.ObjectPauserFn
    ObjectResumerFn := .ocShim g.ObjectResumerFn
    PortsForObjectFn := .ocShim g.PortsForObjectFn
    ProtocolsForObjectFn := .ocShim g.ProtocolsForObjectFn
    RollbackerFn := .ocShim g.RollbackerFn
    StatusViewerFn := .ocShim g.StatusViewerFn
    UpdatePodSpecForObjectFn := .ocShim g.UpdatePodSpecForObjectFn
    GeneratorFn := .ocShim g.GeneratorFn
    DescriberFn := .ocShim g.DescriberFn }

/-! ## Concrete values used by witnesses -/

/-- A concrete route, standing in for a `route.UnsecuredRoute` result. -/
def sampleRoute : Route :=
  { ObjectMeta := { Name := "my-route", Namespace := "default", Annotations := [] }
    Spec :=
      { Host := ""
        Subdomain := ""
        Path := ""
        To := { Kind := "Service", Name := "frontend", Weight := some 100 }
        AlternateBackends := []
        Port := none
        TLS := none
        WildcardPolicy := "" } }

/-- Concrete options for witnesses. -/
def sampleOpts : CreatePassthroughRouteOptions :=
  { Hostname := "www.example.com"
    Port := "443"
    InsecurePolicy := ""
    Service := "frontend"
    WildcardPolicy := ""
    DryRunStrategy := .DryRunNone }

/-- An environment whose oracles all succeed, with `String` errors. -/
def okEnv : RunEnv String :=
  { resolveServiceName := fun s => .ok s
    UnsecuredRoute := fun _ _ => .ok sampleRoute
    createOrUpdateAnnotationFn := fun r => .ok r
    ClientCreate := fun r => .ok r
    PrintObj := fun _ => .ok () }

/-! ## Unfolding lemmas for `Run`, one per source branch -/

theorem Run_resolve_error {ε : Type} (env : RunEnv ε)
    (o : CreatePassthroughRouteOptions) (e : ε)
    (h : env.resolveServiceName o.Service = .error e) :
    Run ε env o = ⟨.error e, none, none, none⟩ := by
  simp [Run, h]

theorem Run_build_error {ε : Type} (env : RunEnv ε)
    (o : CreatePassthroughRouteOptions) (e : ε) (sn : String)
    (h1 : env.resolveServiceName o.Service = .ok sn)
    (h2 : env.UnsecuredRoute sn o.Port = .error e) :
    Run ε env o = ⟨.error e, none, none, none⟩ := by
  simp [Run, h1, h2]

theorem Run_annotate_error {ε : Type} (env : RunEnv ε)
    (o : CreatePassthroughRouteOptions) (e : ε) (sn : String) (r0 : Route)
    (h1 : env.resolveServiceName o.Service = .ok sn)
    (h2 : env.UnsecuredRoute sn o.Port = .ok r0)
    (h3 : env.createOrUpdateAnnotationFn (applyPassthroughFields o r0) = .error e) :
    Run ε env o = ⟨.error e, some (applyPassthroughFields o r0), none, none⟩ := by
  simp [Run, h1, h2, h3]

theorem Run_create_error {ε : Type} (env : RunEnv ε)
    (o : CreatePassthroughRouteOptions) (e : ε) (sn : String) (r0 r2 : Route)
    (h1 : env.resolveServiceName o.Service = .ok sn)
    (h2 : env.UnsecuredRoute sn o.Port = .ok r0)
    (h3 : env.createOrUpdateAnnotationFn (applyPassthroughFields o r0) = .ok r2)
    (hdry : o.DryRunStrategy ≠ DryRunStrategy.DryRunClient)
    (h4 : env.ClientCreate r2 = .error e) :
    Run ε env o = ⟨.error e, some (applyPassthroughFields o r0), some r2, none⟩ := by
  simp [Run, h1, h2, h3, h4, hdry]

theorem Run_create_ok {ε : Type} (env : RunEnv ε)
    (o : CreatePassthroughRouteOptions) (sn : String) (r0 r2 r3 : Route)
    (h1 : env.resolveServiceName o.Service = .ok sn)
    (h2 : env.UnsecuredRoute sn o.Port = .ok r0)
    (h3 : env.createOrUpdateAnnotationFn (applyPassthroughFields o r0) = .ok r2)
    (hdry : o.DryRunStrategy ≠ DryRunStrategy.DryRunClient)
    (h4 : env.ClientCreate r2 = .ok r3) :
    Run ε env o =
      ⟨env.PrintObj r3, some (applyPassthroughFields o r0), some r2, some r3⟩ := by
  simp [Run, h1, h2, h3, h4, hdry]

theorem Run_client_dry {ε : Type} (env : RunEnv ε)
    (o : CreatePassthroughRouteOptions) (sn : String) (r0 r2 : Route)
    (h1 : env.resolveServiceName o.Service = .ok sn)
    (h2 : env.UnsecuredRoute sn o.Port = .ok r0)
    (h3 : env.createOrUpdateAnnotationFn (applyPassthroughFields o r0) = .ok r2)
    (hdry : o.DryRunStrategy = DryRunStrategy.DryRunClient) :
    Run ε env o =
      ⟨env.PrintObj r2, some (applyPassthroughFields o r0), none, some r2⟩ := by
  simp [Run, h1, h2, h3, hdry]

/-- Any route recorded in the `builtRoute` slot is the result of the local
field assignments on some `route.UnsecuredRoute` output. -/
theorem Run_builtRoute_shape {ε : Type} (env : RunEnv ε)
    (o : CreatePassthroughRouteOptions) (r : Route)
    (h : (Run ε env o).builtRoute = some r) :
    ∃ r0 : Route, r = applyPassthroughFields o r0 := by
  cases hres : env.resolveServiceName o.Service with
  | error e => rw [Run_resolve_error env o e hres] at h; simp at h
  | ok sn =>
    cases hbuild : env.UnsecuredRoute sn o.Port with
    | error e => rw [Run_build_error env o e sn hres hbuild] at h; simp at h
    | ok r0 =>
      refine ⟨r0, ?_⟩
      cases hann : env.createOrUpdateAnnotationFn (applyPassthroughFields o r0) with
      | error e =>
        rw [Run_annotate_error env o e sn r0 hres hbuild hann] at h
        simpa using h.symm
      | ok r2 =>
        by_cases hdry : o.DryRunStrategy = DryRunStrategy.DryRunClient
        · rw [Run_client_dry env o sn r0 r2 hres hbuild hann hdry] at h
          simpa using h.symm
        · cases hcr : env.ClientCreate r2 with
          | error e =>
            rw [Run_create_error env o e sn r0 r2 hres hbuild hann hdry hcr] at h
            simpa using h.symm
          | ok r3 =>
            rw [Run_create_ok env o sn r0 r2 r3 hres hbuild hann hdry hcr] at h
            simpa using h.symm

/-! ## Properties of the local field assignments (lines 90–100) -/

theorem applyPassthroughFields_Host (o : CreatePassthroughRouteOptions)
    (r0 : Route) : (applyPassthroughFields o r0).Spec.Host = o.Hostname := by
  unfold applyPassthroughFields
  by_cases hw : 0 < o.WildcardPolicy.length <;>
    by_cases hi : 0 < o.InsecurePolicy.length <;> simp [hw, hi]

theorem applyPassthroughFields_TLS (o : CreatePassthroughRouteOptions)
    (r0 : Route) :
    (applyPassthroughFields o r0).Spec.TLS =
      some ⟨TLSTerminationPassthrough, "", "", "", "",
        if 0 < o.InsecurePolicy.length then o.InsecurePolicy else ""⟩ := by
  unfold applyPassthroughFields TLSConfig.zero
  by_cases hw : 0 < o.WildcardPolicy.length <;>
    by_cases hi : 0 < o.InsecurePolicy.length <;> simp [hw, hi]

theorem applyPassthroughFields_WildcardPolicy (o : CreatePassthroughRouteOptions)
    (r0 : Route) :
    (applyPassthroughFields o r0).Spec.WildcardPolicy =
      if 0 < o.WildcardPolicy.length then o.WildcardPolicy
      else r0.Spec.WildcardPolicy := by
  unfold applyPassthroughFields
  by_cases hw : 0 < o.WildcardPolicy.length <;>
    by_cases hi : 0 < o.InsecurePolicy.length <;> simp [hw, hi]

/-! ## Claim theorems -/

/-- Claim C1: for every invocation of `Run` that reaches submission — for
any `--service` value and any behaviour of the external calls — the route
object `Run` builds and submits carries a TLS config whose `Termination`
field is the passthrough constant: `Run` always allocates the TLS config
and sets `Termination` before the annotate/create/print steps. -/
theorem run_termination_always_passthrough :
    ∀ (ε : Type) (env : RunEnv ε) (o : CreatePassthroughRouteOptions)
      (r : Route), (Run ε env o).builtRoute = some r →
      ∃ t : TLSConfig, r.Spec.TLS = some t ∧
        t.Termination = TLSTerminationPassthrough := by
  intro ε env o r h
  obtain ⟨r0, rfl⟩ := Run_builtRoute_shape env o r h
  exact ⟨_, applyPassthroughFields_TLS o r0, rfl⟩

/-- Witness for C1 at a concrete environment and options. -/
theorem run_termination_always_passthrough_witness :
    ∃ t : TLSConfig,
      (applyPassthroughFields sampleOpts sampleRoute).Spec.TLS = some t ∧
        t.Termination = TLSTerminationPassthrough :=
  run_termination_always_passthrough String okEnv sampleOpts
    (applyPassthroughFields sampleOpts sampleRoute) rfl

/-- Claim C9: the TLS config of the submitted object is freshly allocated,
so it is fully determined by the options alone — `Termination` is
passthrough, `InsecureEdgeTerminationPolicy` is set exactly when
`--insecure-policy` is non-empty, and the certificate, key, CA-certificate
and destination-CA-certificate fields are all at their zero value,
whatever TLS config the route carried before. -/
theorem run_tls_config_exact :
    ∀ (ε : Type) (env : RunEnv ε) (o : CreatePassthroughRouteOptions)
      (r : Route), (Run ε env o).builtRoute = some r →
      r.Spec.TLS = some ⟨TLSTerminationPassthrough, "", "", "", "",
        if 0 < o.InsecurePolicy.length then o.InsecurePolicy else ""⟩ := by
  intro ε env o r h
  obtain ⟨r0, rfl⟩ := Run_builtRoute_shape env o r h
  exact applyPassthroughFields_TLS o r0

/-- Witness for C9 with a non-empty `--insecure-policy`. -/
theorem run_tls_config_exact_witness :
    (applyPassthroughFields
        { sampleOpts with InsecurePolicy := "Redirect" } sampleRoute).Spec.TLS =
      some ⟨TLSTerminationPassthrough, "", "", "", "",
        if 0 < ("Redirect" : String).length then "Redirect" else ""⟩ :=
  run_tls_config_exact String okEnv
    { sampleOpts with InsecurePolicy := "Redirect" }
    (applyPassthroughFields
      { sampleOpts with InsecurePolicy := "Redirect" } sampleRoute) rfl

/-- Claim C6: `Run` assigns the `--hostname` value to `Spec.Host`
unconditionally (line 94), so the route it builds and submits has
`Spec.Host = H`; and provided the external annotation step leaves
`Spec.Host` alone (as `util.CreateOrUpdateAnnotation` only writes
metadata annotations), the object printed under client dry-run also has
`Spec.Host = H`. -/
theorem run_sets_host_unconditionally :
    (∀ (o : CreatePassthroughRouteOptions) (r0 : Route),
      (applyPassthroughFields o r0).Spec.Host = o.Hostname) ∧
    (∀ (ε : Type) (env : RunEnv ε) (o : CreatePassthroughRouteOptions)
      (r : Route), (Run ε env o).builtRoute = some r →
      r.Spec.Host = o.Hostname) ∧
    (∀ (ε : Type) (env : RunEnv ε) (o : CreatePassthroughRouteOptions)
      (sn : String) (r0 r2 : Route),
      env.resolveServiceName o.Service = .ok sn →
      env.UnsecuredRoute sn o.Port = .ok r0 →
      env.createOrUpdateAnnotationFn (applyPassthroughFields o r0) = .ok r2 →
      r2.Spec.Host = (applyPassthroughFields o r0).Spec.Host →
      r2.Spec.Host = o.Hostname ∧
        (o.DryRunStrategy = DryRunStrategy.DryRunClient →
          (Run ε env o).printedArg = some r2)) := by
  refine ⟨applyPassthroughFields_Host, ?_, ?_⟩
  · intro ε env o r h
    obtain ⟨r0, rfl⟩ := Run_builtRoute_shape env o r h
    exact applyPassthroughFields_Host o r0
  · intro ε env o sn r0 r2 h1 h2 h3 hpres
    refine ⟨hpres.trans (applyPassthroughFields_Host o r0), ?_⟩
    intro hdry
    rw [Run_client_dry env o sn r0 r2 h1 h2 h3 hdry]

/-- Witness for C6 at a concrete run under client dry-run. -/
theorem run_sets_host_unconditionally_witness :
    (applyPassthroughFields sampleOpts sampleRoute).Spec.Host =
        "www.example.com" ∧
      (applyPassthroughFields sampleOpts sampleRoute).Spec.Host =
          "www.example.com" ∧
        (Run String okEnv { sampleOpts with DryRunStrategy := .DryRunClient }).printedArg =
          some (applyPassthroughFields
            { sampleOpts with DryRunStrategy := .DryRunClient } sampleRoute) := by
  refine ⟨run_sets_host_unconditionally.1 sampleOpts sampleRoute, ?_, ?_⟩
  · exact run_sets_host_unconditionally.2.1 String okEnv sampleOpts
      (applyPassthroughFields sampleOpts sampleRoute) rfl
  · exact (run_sets_host_unconditionally.2.2 String okEnv
      { sampleOpts with DryRunStrategy := .DryRunClient } "frontend"
      sampleRoute
      (applyPassthroughFields
        { sampleOpts with DryRunStrategy := .DryRunClient } sampleRoute)
      rfl rfl rfl rfl).2 rfl

/-- Claim C5: when the `--wildcard-policy` flag is empty, `Run` never
assigns `Spec.WildcardPolicy`: the field of the built route equals the
field of the route `route.UnsecuredRoute` returned, and in particular it
stays at the zero value `""` when that route had it at the zero value. -/
theorem run_leaves_wildcard_policy_unassigned :
    (∀ (o : CreatePassthroughRouteOptions) (r0 : Route),
      o.WildcardPolicy = "" →
      (applyPassthroughFields o r0).Spec.WildcardPolicy =
        r0.Spec.WildcardPolicy) ∧
    (∀ (ε : Type) (env : RunEnv ε) (o : CreatePassthroughRouteOptions)
      (sn : String) (r0 : Route),
      o.WildcardPolicy = "" →
      env.resolveServiceName o.Service = .ok sn →
      env.UnsecuredRoute sn o.Port = .ok r0 →
      r0.Spec.WildcardPolicy = "" →
      ∀ r : Route, (Run ε env o).builtRoute = some r →
        r.Spec.WildcardPolicy = "") := by
  have hkey : ∀ (o : CreatePassthroughRouteOptions) (r0 : Route),
      o.WildcardPolicy = "" →
      (applyPassthroughFields o r0).Spec.WildcardPolicy =
        r0.Spec.WildcardPolicy := by
    intro o r0 hw
    rw [applyPassthroughFields_WildcardPolicy, hw]
    simp
  refine ⟨hkey, ?_⟩
  intro ε env o sn r0 hw h1 h2 hzero r h
  -- with the resolution and construction oracles fixed by `h1`/`h2`, the
  -- only route the trace can record is `applyPassthroughFields o r0`
  cases hann : env.createOrUpdateAnnotationFn (applyPassthroughFields o r0) with
  | error e =>
    rw [Run_annotate_error env o e sn r0 h1 h2 hann] at h
    simp at h
    rw [← h, hkey o r0 hw, hzero]
  | ok r2 =>
    by_cases hdry : o.DryRunStrategy = DryRunStrategy.DryRunClient
    · rw [Run_client_dry env o sn r0 r2 h1 h2 hann hdry] at h
      simp at h
      rw [← h, hkey o r0 hw, hzero]
    · cases hcr : env.ClientCreate r2 with
      | error e =>
        rw [Run_create_error env o e sn r0 r2 h1 h2 hann hdry hcr] at h
        simp at h
        rw [← h, hkey o r0 hw, hzero]
      | ok r3 =>
        rw [Run_create_ok env o sn r0 r2 r3 h1 h2 hann hdry hcr] at h
        simp at h
        rw [← h, hkey o r0 hw, hzero]

/-- Witness for C5 at a concrete environment with no wildcard policy. -/
theorem run_leaves_wildcard_policy_unassigned_witness :
    (applyPassthroughFields sampleOpts sampleRoute).Spec.WildcardPolicy =
        sampleRoute.Spec.WildcardPolicy ∧
      (applyPassthroughFields sampleOpts sampleRoute).Spec.WildcardPolicy = "" :=
  ⟨run_leaves_wildcard_policy_unassigned.1 sampleOpts sampleRoute rfl,
   run_leaves_wildcard_policy_unassigned.2 String okEnv sampleOpts "frontend"
     sampleRoute rfl rfl rfl rfl
     (applyPassthroughFields sampleOpts sampleRoute) rfl⟩

/-- Claim C3: each of the five steps of `Run` propagates its error
unmodified (the error type is abstract, so `Run` cannot rewrap or
classify it), and an error skips every later step: the trace shows the
remaining calls were never issued. -/
theorem run_propagates_first_error :
    ∀ (ε : Type) (env : RunEnv ε) (o : CreatePassthroughRouteOptions)
      (e : ε),
    (env.resolveServiceName o.Service = .error e →
      Run ε env o = ⟨.error e, none, none, none⟩) ∧
    (∀ sn : String, env.resolveServiceName o.Service = .ok sn →
      env.UnsecuredRoute sn o.Port = .error e →
      Run ε env o = ⟨.error e, none, none, none⟩) ∧
    (∀ (sn : String) (r0 : Route),
      env.resolveServiceName o.Service = .ok sn →
      env.UnsecuredRoute sn o.Port = .ok r0 →
      env.createOrUpdateAnnotationFn (applyPassthroughFields o r0) = .error e →
      Run ε env o = ⟨.error e, some (applyPassthroughFields o r0), none, none⟩) ∧
    (∀ (sn : String) (r0 r2 : Route),
      env.resolveServiceName o.Service = .ok sn →
      env.UnsecuredRoute sn o.Port = .ok r0 →
      env.createOrUpdateAnnotationFn (applyPassthroughFields o r0) = .ok r2 →
      o.DryRunStrategy ≠ DryRunStrategy.DryRunClient →
      env.ClientCreate r2 = .error e →
      Run ε env o =
        ⟨.error e, some (applyPassthroughFields o r0), some r2, none⟩) ∧
    (∀ (sn : String) (r0 r2 r3 : Route),
      env.resolveServiceName o.Service = .ok sn →
      env.UnsecuredRoute sn o.Port = .ok r0 →
      env.createOrUpdateAnnotationFn (applyPassthroughFields o r0) = .ok r2 →
      o.DryRunStrategy ≠ DryRunStrategy.DryRunClient →
      env.ClientCreate r2 = .ok r3 →
      env.PrintObj r3 = .error e →
      (Run ε env o).result = .error e) ∧
    (∀ (sn : String) (r0 r2 : Route),
      env.resolveServiceName o.Service = .ok sn →
      env.UnsecuredRoute sn o.Port = .ok r0 →
      env.createOrUpdateAnnotationFn (applyPassthroughFields o r0) = .ok r2 →
      o.DryRunStrategy = DryRunStrategy.DryRunClient →
      env.PrintObj r2 = .error e →
      (Run ε env o).result = .error e) := by
  intro ε env o e
  refine ⟨fun h => Run_resolve_error env o e h,
    fun sn h1 h2 => Run_build_error env o e sn h1 h2,
    fun sn r0 h1 h2 h3 => Run_annotate_error env o e sn r0 h1 h2 h3,
    fun sn r0 r2 h1 h2 h3 hdry h4 =>
      Run_create_error env o e sn r0 r2 h1 h2 h3 hdry h4,
    ?_, ?_⟩
  · intro sn r0 r2 r3 h1 h2 h3 hdry h4 h5
    rw [Run_create_ok env o sn r0 r2 r3 h1 h2 h3 hdry h4]
    exact h5
  · intro sn r0 r2 h1 h2 h3 hdry h5
    rw [Run_client_dry env o sn r0 r2 h1 h2 h3 hdry]
    exact h5

/-- Oracle set failing at service-name resolution. -/
def errResolveEnv : RunEnv String :=
  { okEnv with resolveServiceName := fun _ => .error "resolve failed" }

/-- Oracle set failing at route construction. -/
def errBuildEnv : RunEnv String :=
  { okEnv with UnsecuredRoute := fun _ _ => .error "build failed" }

/-- Oracle set failing at the annotation step. -/
def errAnnotateEnv : RunEnv String :=
  { okEnv with createOrUpdateAnnotationFn := fun _ => .error "annotate failed" }

/-- Oracle set failing at the remote create call. -/
def errCreateEnv : RunEnv String :=
  { okEnv with ClientCreate := fun _ => .error "create failed" }

/-- Oracle set failing at the printer. -/
def errPrintEnv : RunEnv String :=
  { okEnv with PrintObj := fun _ => .error "print failed" }

/-- `sampleOpts` under client-side dry-run. -/
def clientDryOpts : CreatePassthroughRouteOptions :=
  { sampleOpts with DryRunStrategy := .DryRunClient }

/-- Witness for C3: one concrete run per failing step. -/
theorem run_propagates_first_error_witness :
    Run String errResolveEnv sampleOpts =
        ⟨.error "resolve failed", none, none, none⟩ ∧
      Run String errBuildEnv sampleOpts =
          ⟨.error "build failed", none, none, none⟩ ∧
        Run String errAnnotateEnv sampleOpts =
            ⟨.error "annotate failed",
              some (applyPassthroughFields sampleOpts sampleRoute), none, none⟩ ∧
          Run String errCreateEnv sampleOpts =
              ⟨.error "create failed",
                some (applyPassthroughFields sampleOpts sampleRoute),
                some (applyPassthroughFields sampleOpts sampleRoute), none⟩ ∧
            (Run String errPrintEnv sampleOpts).result = .error "print failed" ∧
              (Run String errPrintEnv clientDryOpts).result =
                .error "print failed" :=
  ⟨(run_propagates_first_error String errResolveEnv sampleOpts
      "resolve failed").1 rfl,
   (run_propagates_first_error String errBuildEnv sampleOpts
      "build failed").2.1 "frontend" rfl rfl,
   (run_propagates_first_error String errAnnotateEnv sampleOpts
      "annotate failed").2.2.1 "frontend" sampleRoute rfl rfl rfl,
   (run_propagates_first_error String errCreateEnv sampleOpts
      "create failed").2.2.2.1 "frontend" sampleRoute
      (applyPassthroughFields sampleOpts sampleRoute) rfl rfl rfl
      (by decide) rfl,
   (run_propagates_first_error String errPrintEnv sampleOpts
      "print failed").2.2.2.2.1 "frontend" sampleRoute
      (applyPassthroughFields sampleOpts sampleRoute)
      (applyPassthroughFields sampleOpts sampleRoute) rfl rfl rfl
      (by decide) rfl rfl,
   (run_propagates_first_error String errPrintEnv clientDryOpts
      "print failed").2.2.2.2.2 "frontend" sampleRoute
      (applyPassthroughFields clientDryOpts sampleRoute) rfl rfl rfl
      rfl rfl⟩

/-- Claim C10: on every error path before the print step — resolution,
construction, annotation, or the remote create call — `Run` returns that
error and the printer is never called, so nothing is written to the
output stream. -/
theorem run_withholds_output_on_error :
    ∀ (ε : Type) (env : RunEnv ε) (o : CreatePassthroughRouteOptions)
      (e : ε),
    (env.resolveServiceName o.Service = .error e →
      (Run ε env o).result = .error e ∧ (Run ε env o).printedArg = none) ∧
    (∀ sn : String, env.resolveServiceName o.Service = .ok sn →
      env.UnsecuredRoute sn o.Port = .error e →
      (Run ε env o).result = .error e ∧ (Run ε env o).printedArg = none) ∧
    (∀ (sn : String) (r0 : Route),
      env.resolveServiceName o.Service = .ok sn →
      env.UnsecuredRoute sn o.Port = .ok r0 →
      env.createOrUpdateAnnotationFn (applyPassthroughFields o r0) = .error e →
      (Run ε env o).result = .error e ∧ (Run ε env o).printedArg = none) ∧
    (∀ (sn : String) (r0 r2 : Route),
      env.resolveServiceName o.Service = .ok sn →
      env.UnsecuredRoute sn o.Port = .ok r0 →
      env.createOrUpdateAnnotationFn (applyPassthroughFields o r0) = .ok r2 →
      o.DryRunStrategy ≠ DryRunStrategy.DryRunClient →
      env.ClientCreate r2 = .error e →
      (Run ε env o).result = .error e ∧ (Run ε env o).printedArg = none) := by
  intro ε env o e
  refine ⟨?_, ?_, ?_, ?_⟩
  · intro h
    rw [Run_resolve_error env o e h]
    exact ⟨rfl, rfl⟩
  · intro sn h1 h2
    rw [Run_build_error env o e sn h1 h2]
    exact ⟨rfl, rfl⟩
  · intro sn r0 h1 h2 h3
    rw [Run_annotate_error env o e sn r0 h1 h2 h3]
    exact ⟨rfl, rfl⟩
  · intro sn r0 r2 h1 h2 h3 hdry h4
    rw [Run_create_error env o e sn r0 r2 h1 h2 h3 hdry h4]
    exact ⟨rfl, rfl⟩

/-- Witness for C10: on each of the four pre-print failures nothing is
printed. -/
theorem run_withholds_output_on_error_witness :
    ((Run String errResolveEnv sampleOpts).result = .error "resolve failed" ∧
        (Run String errResolveEnv sampleOpts).printedArg = none) ∧
      ((Run String errBuildEnv sampleOpts).result = .error "build failed" ∧
          (Run String errBuildEnv sampleOpts).printedArg = none) ∧
        ((Run String errAnnotateEnv sampleOpts).result =
              .error "annotate failed" ∧
            (Run String errAnnotateEnv sampleOpts).printedArg = none) ∧
          ((Run String errCreateEnv sampleOpts).result =
                .error "create failed" ∧
              (Run String errCreateEnv sampleOpts).printedArg = none) :=
  ⟨(run_withholds_output_on_error String errResolveEnv sampleOpts
      "resolve failed").1 rfl,
   (run_withholds_output_on_error String errBuildEnv sampleOpts
      "build failed").2.1 "frontend" rfl rfl,
   (run_withholds_output_on_error String errAnnotateEnv sampleOpts
      "annotate failed").2.2.1 "frontend" sampleRoute rfl rfl rfl,
   (run_withholds_output_on_error String errCreateEnv sampleOpts
      "create failed").2.2.2 "frontend" sampleRoute
      (applyPassthroughFields sampleOpts sampleRoute) rfl rfl rfl
      (by decide) rfl⟩

/-- Claim C4: the remote create call is issued only when the dry-run
strategy is not client-side dry-run; whenever the steps before it
succeed, it is issued exactly in that case, the printed object is the
server response when the call was made, the locally built (annotated)
object under client dry-run, and under client dry-run no remote call is
issued at all. -/
theorem run_create_iff_not_client_dry_run :
    (∀ (ε : Type) (env : RunEnv ε) (o : CreatePassthroughRouteOptions),
      (Run ε env o).createdArg.isSome = true →
        o.DryRunStrategy ≠ DryRunStrategy.DryRunClient) ∧
    (∀ (ε : Type) (env : RunEnv ε) (o : CreatePassthroughRouteOptions)
      (sn : String) (r0 r2 : Route),
      env.resolveServiceName o.Service = .ok sn →
      env.UnsecuredRoute sn o.Port = .ok r0 →
      env.createOrUpdateAnnotationFn (applyPassthroughFields o r0) = .ok r2 →
      ((Run ε env o).createdArg.isSome = true ↔
          o.DryRunStrategy ≠ DryRunStrategy.DryRunClient) ∧
        (o.DryRunStrategy = DryRunStrategy.DryRunClient →
          (Run ε env o).createdArg = none ∧
            (Run ε env o).printedArg = some r2) ∧
        (o.DryRunStrategy ≠ DryRunStrategy.DryRunClient →
          (Run ε env o).createdArg = some r2 ∧
            ∀ r3 : Route, env.ClientCreate r2 = .ok r3 →
              (Run ε env o).printedArg = some r3)) := by
  constructor
  · intro ε env o h
    cases hres : env.resolveServiceName o.Service with
    | error e => rw [Run_resolve_error env o e hres] at h; simp at h
    | ok sn =>
      cases hbuild : env.UnsecuredRoute sn o.Port with
      | error e => rw [Run_build_error env o e sn hres hbuild] at h; simp at h
      | ok r0 =>
        cases hann : env.createOrUpdateAnnotationFn (applyPassthroughFields o r0) with
        | error e =>
          rw [Run_annotate_error env o e sn r0 hres hbuild hann] at h
          simp at h
        | ok r2 =>
          by_cases hdry : o.DryRunStrategy = DryRunStrategy.DryRunClient
          · rw [Run_client_dry env o sn r0 r2 hres hbuild hann hdry] at h
            simp at h
          · exact hdry
  · intro ε env o sn r0 r2 h1 h2 h3
    by_cases hdry : o.DryRunStrategy = DryRunStrategy.DryRunClient
    · rw [Run_client_dry env o sn r0 r2 h1 h2 h3 hdry]
      simp [hdry]
    · refine ⟨?_, fun hc => absurd hc hdry, ?_⟩
      · cases hcr : env.ClientCreate r2 with
        | error e =>
          rw [Run_create_error env o e sn r0 r2 h1 h2 h3 hdry hcr]
          simp [hdry]
        | ok r3 =>
          rw [Run_create_ok env o sn r0 r2 r3 h1 h2 h3 hdry hcr]
          simp [hdry]
      · intro _
        cases hcr : env.ClientCreate r2 with
        | error e =>
          rw [Run_create_error env o e sn r0 r2 h1 h2 h3 hdry hcr]
          refine ⟨rfl, fun r3 hr3 => ?_⟩
          cases hr3
        | ok r3 =>
          rw [Run_create_ok env o sn r0 r2 r3 h1 h2 h3 hdry hcr]
          refine ⟨rfl, fun r3' hr3 => ?_⟩
          cases hr3
          rfl

/-- Witness for C4: a concrete non-dry-run invocation issues the create
call and prints its response; the same invocation under client dry-run
issues no create call and prints the local object. -/
theorem run_create_iff_not_client_dry_run_witness :
    sampleOpts.DryRunStrategy ≠ DryRunStrategy.DryRunClient ∧
      (Run String okEnv clientDryOpts).createdArg = none ∧
        (Run String okEnv clientDryOpts).printedArg =
            some (applyPassthroughFields clientDryOpts sampleRoute) ∧
          (Run String okEnv sampleOpts).createdArg =
              some (applyPassthroughFields sampleOpts sampleRoute) ∧
            (Run String okEnv sampleOpts).printedArg =
              some (applyPassthroughFields sampleOpts sampleRoute) := by
  have hclient :=
    (run_create_iff_not_client_dry_run.2 String okEnv clientDryOpts
      "frontend" sampleRoute
      (applyPassthroughFields clientDryOpts sampleRoute) rfl rfl rfl).2.1 rfl
  have hnone :=
    (run_create_iff_not_client_dry_run.2 String okEnv sampleOpts
      "frontend" sampleRoute
      (applyPassthroughFields sampleOpts sampleRoute) rfl rfl rfl).2.2
      (by decide)
  exact ⟨run_create_iff_not_client_dry_run.1 String okEnv sampleOpts rfl,
    hclient.1, hclient.2, hnone.1, hnone.2 _ rfl⟩

/-- Claim C8: `Run` validates neither policy flag — any non-empty string
is cast verbatim into `Spec.WildcardPolicy` (line 91) or
`Spec.TLS.InsecureEdgeTerminationPolicy` (line 99), the Go conversions
being string-typed casts — and whenever the external calls succeed, `Run`
returns no error for any values of the two flags, documented or not. -/
theorem run_casts_policies_verbatim :
    (∀ (o : CreatePassthroughRouteOptions) (r0 : Route),
      (0 < o.WildcardPolicy.length →
        (applyPassthroughFields o r0).Spec.WildcardPolicy = o.WildcardPolicy) ∧
      (0 < o.InsecurePolicy.length →
        ∃ t : TLSConfig, (applyPassthroughFields o r0).Spec.TLS = some t ∧
          t.InsecureEdgeTerminationPolicy = o.InsecurePolicy)) ∧
    (∀ (ε : Type) (env : RunEnv ε) (o : CreatePassthroughRouteOptions),
      (∀ s, ∃ sn, env.resolveServiceName s = .ok sn) →
      (∀ sn p, ∃ r, env.UnsecuredRoute sn p = .ok r) →
      (∀ r, ∃ r2, env.createOrUpdateAnnotationFn r = .ok r2) →
      (∀ r, ∃ r3, env.ClientCreate r = .ok r3) →
      (∀ r, env.PrintObj r = .ok ()) →
      (Run ε env o).result = .ok ()) := by
  constructor
  · intro o r0
    constructor
    · intro hw
      rw [applyPassthroughFields_WildcardPolicy]
      simp [hw]
    · intro hi
      exact ⟨_, applyPassthroughFields_TLS o r0, by simp [hi]⟩
  · intro ε env o hres hbuild hann hcr hpr
    obtain ⟨sn, h1⟩ := hres o.Service
    obtain ⟨r0, h2⟩ := hbuild sn o.Port
    obtain ⟨r2, h3⟩ := hann (applyPassthroughFields o r0)
    by_cases hdry : o.DryRunStrategy = DryRunStrategy.DryRunClient
    · rw [Run_client_dry env o sn r0 r2 h1 h2 h3 hdry]
      exact hpr r2
    · obtain ⟨r3, h4⟩ := hcr r2
      rw [Run_create_ok env o sn r0 r2 r3 h1 h2 h3 hdry h4]
      exact hpr r3

/-- Options carrying values outside the documented valid sets of both
policy flags. -/
def bogusOpts : CreatePassthroughRouteOptions :=
  { sampleOpts with WildcardPolicy := "Bogus", InsecurePolicy := "AlsoBogus" }

/-- Witness for C8 at undocumented policy values. -/
theorem run_casts_policies_verbatim_witness :
    (applyPassthroughFields bogusOpts sampleRoute).Spec.WildcardPolicy =
        "Bogus" ∧
      (∃ t : TLSConfig,
        (applyPassthroughFields bogusOpts sampleRoute).Spec.TLS = some t ∧
          t.InsecureEdgeTerminationPolicy = "AlsoBogus") ∧
        (Run String okEnv bogusOpts).result = .ok () :=
  ⟨(run_casts_policies_verbatim.1 bogusOpts sampleRoute).1 (by decide),
   (run_casts_policies_verbatim.1 bogusOpts sampleRoute).2 (by decide),
   run_casts_policies_verbatim.2 String okEnv bogusOpts
     (fun s => ⟨s, rfl⟩) (fun _ _ => ⟨sampleRoute, rfl⟩)
     (fun r => ⟨r, rfl⟩) (fun r => ⟨r, rfl⟩) (fun _ => rfl)⟩

/-- Claim C2: `NewCmdCreatePassthroughRoute` marks the `--service` flag
required (line 66), so a command line that does not supply `--service`
fails required-flag validation and the command's handler — the closure
calling `Complete` and then `Run` — is never invoked. -/
theorem service_flag_required_blocks_run :
    "service" ∈ NewCmdCreatePassthroughRoute.requiredFlags ∧
      ∀ provided : List String, "service" ∉ provided →
        (executeCmd NewCmdCreatePassthroughRoute provided).ranHandler = false ∧
          (executeCmd NewCmdCreatePassthroughRoute provided).missingFlags ≠ [] := by
  constructor
  · simp [NewCmdCreatePassthroughRoute]
  · intro provided h
    have hc : provided.contains "service" = false := by
      simpa using h
    unfold executeCmd NewCmdCreatePassthroughRoute
    simp [hc, List.filter, h]

/-- Witness for C2 at a command line supplying only other flags. -/
theorem service_flag_required_blocks_run_witness :
    "service" ∈ NewCmdCreatePassthroughRoute.requiredFlags ∧
      (executeCmd NewCmdCreatePassthroughRoute
          ["hostname", "port"]).ranHandler = false ∧
        (executeCmd NewCmdCreatePassthroughRoute
            ["hostname", "port"]).missingFlags ≠ [] :=
  ⟨service_flag_required_blocks_run.1,
   service_flag_required_blocks_run.2 ["hostname", "port"] (by decide)⟩

/-- Claim C7: `shimKubectlForOc` uses the value of the environment
variable `KUBERNETES_MASTER` as the default cluster server address, and
it reads no other environment variable: its entire effect depends on the
environment only through that one value. -/
theorem shim_reads_only_kubernetes_master :
    (∀ (getenv : String → String) (g : KubectlGlobals),
      (shimKubectlForOc getenv g).ClusterDefaults.Server =
        getenv "KUBERNETES_MASTER") ∧
    (∀ (g1 g2 : String → String) (g : KubectlGlobals),
      g1 "KUBERNETES_MASTER" = g2 "KUBERNETES_MASTER" →
      shimKubectlForOc g1 g = shimKubectlForOc g2 g) := by
  constructor
  · intro getenv g
    rfl
  · intro g1 g2 g h
    unfold shimKubectlForOc
    rw [h]

/-- A concrete pre-shim state of the toolkit globals. -/
def sampleGlobals : KubectlGlobals :=
  { ErrEmptyConfig := "kclientcmd.ErrEmptyConfig"
    ClusterDefaults := { Server := "" }
    UseModifyConfigLock := true
    specialVerbs := []
    ParseDockerImageReferenceToStringFunc :=
      .upstream "kcmdset.ParseDockerImageReferenceToStringFunc"
    AttachablePodForObjectFn := .upstream "AttachablePodForObject"
    CanBeExposedFn := .upstream "CanBeExposed"
    HistoryViewerFn := .upstream "HistoryViewer"
    LogsForObjectFn := .upstream "LogsForObject"
    MapBasedSelectorForObjectFn := .upstream "MapBasedSelectorForObject"
    ObjectPauserFn := .upstream "ObjectPauser"
    ObjectResumerFn := .upstream "ObjectResumer"
    PortsForObjectFn := .upstream "PortsForObject"
    ProtocolsForObjectFn := .upstream "ProtocolsForObject"
    RollbackerFn := .upstream "Rollbacker"
    StatusViewerFn := .upstream "StatusViewer"
    UpdatePodSpecForObjectFn := .upstream "UpdatePodSpecForObject"
    GeneratorFn := .upstream "Generator"
    DescriberFn := .upstream "Describer" }

/-- An environment that is constant everywhere. -/
def envA : String → String := fun _ => "https://master.example:8443"

/-- An environment agreeing with `envA` only on `KUBERNETES_MASTER`. -/
def envB : String → String := fun s =>
  if s = "KUBERNETES_MASTER" then "https://master.example:8443" else "unused"

/-- Witness for C7 at two concrete environments. -/
theorem shim_reads_only_kubernetes_master_witness :
    (shimKubectlForOc envA sampleGlobals).ClusterDefaults.Server =
        envA "KUBERNETES_MASTER" ∧
      shimKubectlForOc envA sampleGlobals = shimKubectlForOc envB sampleGlobals :=
  ⟨shim_reads_only_kubernetes_master.1 envA sampleGlobals,
   shim_reads_only_kubernetes_master.2 envA envB sampleGlobals (by decide)⟩

end OC
